import Mathlib

/-
Verification of the PlateFlex estimation module (src/plateflex/estimate.py).

The module builds a pymc3 probabilistic model from observed spectral data,
samples it, and extracts point estimates.  Machine floats are modelled as
exact rationals, since every claim below is about data plumbing (which
vectors and bounds end up in which node, in which order), never about
floating-point arithmetic.
-/

namespace PlateFlex

/-- Symbolic value for a prior bound: a rational literal or the constant pi
(the source uses np.pi as the upper bound of the alpha prior). -/
inductive BoundV
  | lit (q : ℚ)
  | pi
deriving DecidableEq

/-- A uniform prior node, pm.Uniform(name, lower, upper), as constructed in
bayes_real_estimate (estimate.py lines 166-171). -/
structure PriorSpec where
  name : String
  lower : BoundV
  upper : BoundV
deriving DecidableEq

/-- An observed-normal node, pm.Normal(name, mu, sigma=1, observed), whose mean
and observed data are both fixed supplied vectors; this idiom fixes a variable
rather than inferring it.  Used for the k node (line 163) and the sigma node
(lines 179, 187, 196). -/
structure ObsNormal where
  name : String
  mu : List ℚ
  observed : List ℚ
deriving DecidableEq

/-- The symbolic mean of the likelihood node: admit_exp, coh_exp, or
tt.flatten(tt.concatenate([admit_exp, coh_exp])) (lines 182, 190, 199). -/
inductive MuExpr
  | admitExp
  | cohExp
  | admitCohConcat
deriving DecidableEq

/-- The likelihood node, pm.Normal(name, mu, sigma=sigma-node, observed); in all
three branches its scale is the sigma observed-normal node (lines 182, 190, 202). -/
structure Likelihood where
  name : String
  mu : MuExpr
  observed : List ℚ
deriving DecidableEq

/-- The probabilistic model built by bayes_real_estimate (lines 160-203): the k
observed node, the uniform priors in construction order, whether the forward
model is invoked with the phase argument, the sigma observed node and the
likelihood node.  The last two are none when the typ dispatch attaches none. -/
structure Model where
  kObs : ObsNormal
  priors : List PriorSpec
  forwardWithAlpha : Bool
  sigma : Option ObsNormal
  likelihood : Option Likelihood
deriving DecidableEq

/-- np.array([a, b]).flatten() on two equal-length float vectors is the
row-major concatenation a ++ b.  With unequal lengths the 2019-era numpy builds
a ragged object array that is not a float vector, so the construction cannot
proceed to a well-formed float node: modelled as none. -/
def npFlatten2 (a b : List ℚ) : Option (List ℚ) :=
  if a.length = b.length then some (a ++ b) else none

/-- The uniform priors created at lines 166-171, in construction order:
Te uniform on [2, 250], F uniform on [0, 0.99999), and, only when atyp is
true, alpha uniform on [0, pi]. -/
def mkPriors (atyp : Bool) : List PriorSpec :=
  [⟨"Te", BoundV.lit 2, BoundV.lit 250⟩,
    ⟨"F", BoundV.lit 0, BoundV.lit (99999 / 100000)⟩]
    ++ (if atyp then [⟨"alpha", BoundV.lit 0, BoundV.pi⟩] else [])

/-- The model-construction part of bayes_real_estimate (lines 160-203).  The k
node and the priors are built first; the forward model receives the phase
argument exactly when atyp is true; then the typ string is dispatched over
admit, coh, admit_coh, and any other string falls through every branch,
attaching neither a sigma node nor a likelihood node. -/
def bayes_real_model (k adm eadm coh ecoh : List ℚ) (atyp : Bool) (typ : String) :
    Option Model :=
  if typ = "admit" then
    some ⟨⟨"k", k, k⟩, mkPriors atyp, atyp,
      some ⟨"sigma", eadm, eadm⟩,
      some ⟨"admit_obs", MuExpr.admitExp, adm⟩⟩
  else if typ = "coh" then
    some ⟨⟨"k", k, k⟩, mkPriors atyp, atyp,
      some ⟨"sigma", ecoh, ecoh⟩,
      some ⟨"coh_obs", MuExpr.cohExp, coh⟩⟩
  else if typ = "admit_coh" then
    match npFlatten2 eadm ecoh, npFlatten2 adm coh with
    | some ee, some ac =>
      some ⟨⟨"k", k, k⟩, mkPriors atyp, atyp,
        some ⟨"sigma", ee, ee⟩,
        some ⟨"admit_coh_obs", MuExpr.admitCohConcat, ac⟩⟩
    | _, _ => none
  else
    some ⟨⟨"k", k, k⟩, mkPriors atyp, atyp, none, none⟩

/-- Names of the free (latent, sampled) random variables of a model: exactly
the variables introduced with a prior; observed nodes are not sampled. -/
def freeRVNames (m : Model) : List String :=
  m.priors.map PriorSpec.name

/-- The vector to which the sigma node is fixed, per mode (lines 179, 187, 196). -/
def sigmaData (typ : String) (eadm ecoh : List ℚ) : List ℚ :=
  if typ = "admit" then eadm else if typ = "coh" then ecoh else eadm ++ ecoh

/-- Shape inversion for a built model: whatever the mode, a successfully built
model has the k observed node fixed to the supplied wavenumbers, the priors of
mkPriors, and the phase flag equal to atyp. -/
theorem build_shape (k adm eadm coh ecoh : List ℚ) (atyp : Bool) (typ : String)
    (m : Model) (h : bayes_real_model k adm eadm coh ecoh atyp typ = some m) :
    m.kObs = ⟨"k", k, k⟩ ∧ m.priors = mkPriors atyp ∧ m.forwardWithAlpha = atyp := by
  unfold bayes_real_model at h
  split at h
  · cases Option.some.inj h; exact ⟨rfl, rfl, rfl⟩
  · split at h
    · cases Option.some.inj h; exact ⟨rfl, rfl, rfl⟩
    · split at h
      · split at h
        · cases Option.some.inj h; exact ⟨rfl, rfl, rfl⟩
        · exact Option.noConfusion h
      · cases Option.some.inj h; exact ⟨rfl, rfl, rfl⟩

/-- Inversion of the admit_coh branch: a successfully built joint model forces
the two flatten steps to have succeeded, so the error vectors have equal
lengths, the data vectors have equal lengths, and the model is the literal one
with concatenated data. -/
theorem build_admit_coh (k adm eadm coh ecoh : List ℚ) (atyp : Bool) (m : Model)
    (h : bayes_real_model k adm eadm coh ecoh atyp "admit_coh" = some m) :
    m = ⟨⟨"k", k, k⟩, mkPriors atyp, atyp,
          some ⟨"sigma", eadm ++ ecoh, eadm ++ ecoh⟩,
          some ⟨"admit_coh_obs", MuExpr.admitCohConcat, adm ++ coh⟩⟩ := by
  have key : bayes_real_model k adm eadm coh ecoh atyp "admit_coh"
      = (match npFlatten2 eadm ecoh, npFlatten2 adm coh with
          | some ee, some ac =>
            some (⟨⟨"k", k, k⟩, mkPriors atyp, atyp,
              some ⟨"sigma", ee, ee⟩,
              some ⟨"admit_coh_obs", MuExpr.admitCohConcat, ac⟩⟩ : Model)
          | _, _ => none) := rfl
  rw [key] at h
  split at h
  · rename_i ee ac hee hac
    unfold npFlatten2 at hee hac
    split at hee
    · cases Option.some.inj hee
      split at hac
      · cases Option.some.inj hac
        cases Option.some.inj h
        rfl
      · exact Option.noConfusion hac
    · exact Option.noConfusion hee
  · exact Option.noConfusion h

/-- Modelled from the spec: the default phase of the external forward model,
90 degrees, the physical convention for real-valued spectra. -/
def flex_default_alpha : ℚ := 90

/-- Modelled from the spec: plateflex.flexure.real_xspec_functions is not under
src; per the spec it is a pure deterministic function of (k, Te, F, alpha)
returning the admittance and coherence vectors.  The flexure physics itself is
out of scope, so it is passed in as an opaque kernel named core. -/
def flex_real_xspec_functions (core : List ℚ → ℚ → ℚ → ℚ → List ℚ × List ℚ)
    (k : List ℚ) (Te F alpha : ℚ) : List ℚ × List ℚ :=
  core k Te F alpha

/-- Modelled from the spec: the three-argument call flex.real_xspec_functions
(k, Te, F) leaves alpha at its physical default. -/
def flex_real_xspec_functions3 (core : List ℚ → ℚ → ℚ → ℚ → List ℚ × List ℚ)
    (k : List ℚ) (Te F : ℚ) : List ℚ × List ℚ :=
  flex_real_xspec_functions core k Te F flex_default_alpha

/-- The adapter real_xspec_functions_noalpha (estimate.py lines 37-63): wraps
the call flex.real_xspec_functions(k, Te, F). -/
def real_xspec_functions_noalpha (core : List ℚ → ℚ → ℚ → ℚ → List ℚ × List ℚ)
    (k : List ℚ) (Te F : ℚ) : List ℚ × List ℚ :=
  flex_real_xspec_functions3 core k Te F

/-- The adapter real_xspec_functions_alpha (estimate.py lines 66-93): wraps
the call flex.real_xspec_functions(k, Te, F, alpha). -/
def real_xspec_functions_alpha (core : List ℚ → ℚ → ℚ → ℚ → List ℚ × List ℚ)
    (k : List ℚ) (Te F alpha : ℚ) : List ℚ × List ℚ :=
  flex_real_xspec_functions core k Te F alpha

/-- The column labels of the summary table, per the spec description of the
external summary call. -/
def summaryCols : List String :=
  ["mean", "std", "mc_error", "hpd_2.5", "hpd_97.5", "n_eff", "Rhat"]

/-- A summary table: column labels and one row per parameter, each row a
parameter name with its list of statistics values. -/
structure SummaryTable where
  cols : List String
  rows : List (String × List ℚ)
deriving DecidableEq

/-- Modelled from the spec: pm.summary is an external pymc3 library call, out
of scope per the spec; it builds one row per free parameter in model
construction order with the columns of summaryCols.  The numeric statistics
derived from the trace are abstracted as the kernel stats. -/
def pm_summary (stats : String → List ℚ) (m : Model) : SummaryTable :=
  ⟨summaryCols, (freeRVNames m).map fun n => (n, stats n)⟩

/-- Rounding of a value to two decimal places, as DataFrame.round(2) does at
line 212; floats are modelled as rationals. -/
def round2 (q : ℚ) : ℚ :=
  ((round (100 * q) : ℤ) : ℚ) / 100

/-- Rounding of every value of a summary table to two decimal places. -/
def roundTable (t : SummaryTable) : SummaryTable :=
  ⟨t.cols, t.rows.map fun r => (r.1, r.2.map round2)⟩

/-- Line 212: summary = pm.summary(trace).round(2). -/
def bayes_summary (stats : String → List ℚ) (m : Model) : SummaryTable :=
  roundTable (pm_summary stats m)

/-- The Python expression summary.values[i][j]: row i, column j of the summary
statistics, none when the index is out of range. -/
def sAt (s : SummaryTable) (i j : ℕ) : Option ℚ :=
  (s.rows.map Prod.snd).get? i >>= fun r => r.get? j

/-- get_Te_F (estimate.py lines 218-253): reads summary.values[0][0] and
summary.values[0][1], the MAP entry Te, summary.values[1][0] and
summary.values[1][1], the MAP entry F, and returns the 6-tuple
(mean_te, std_te, best_te, mean_F, std_F, best_F).  A missing row, column or
key, a Python IndexError or KeyError, is modelled as none. -/
def get_Te_F (map_estimate : List (String × ℚ)) (summary : SummaryTable) :
    Option (ℚ × ℚ × ℚ × ℚ × ℚ × ℚ) := do
  let mean_te ← sAt summary 0 0
  let std_te ← sAt summary 0 1
  let best_te ← map_estimate.lookup "Te"
  let mean_F ← sAt summary 1 0
  let std_F ← sAt summary 1 1
  let best_F ← map_estimate.lookup "F"
  pure (mean_te, std_te, best_te, mean_F, std_F, best_F)

/-- The five input arrays of bayes_real_estimate, threaded as explicit state. -/
structure Arrays where
  k : List ℚ
  adm : List ℚ
  eadm : List ℚ
  coh : List ℚ
  ecoh : List ℚ
deriving DecidableEq

/-- The call with the input arrays threaded as explicit state: the body of
bayes_real_estimate (lines 160-212) only reads the five input arrays — the
admit_coh branch builds new flattened arrays with np.array(...).flatten()
rather than writing into the inputs — so the state handed back to the caller
carries each input array as the body left it, field by field. -/
def bayes_real_estimate_st (a : Arrays) (atyp : Bool) (typ : String) :
    Option Model × Arrays :=
  (bayes_real_model a.k a.adm a.eadm a.coh a.ecoh atyp typ,
    ⟨a.k, a.adm, a.eadm, a.coh, a.ecoh⟩)

/-- Claim C1, counterexample: called with the invalid mode string bogus, the
model construction of bayes_real_estimate succeeds with no contract-violation
error, and the resulting model carries no likelihood term and no sigma node. -/
theorem claim_C1_counterexample :
    bayes_real_model [1] [1] [1] [1] [1] false "bogus"
      = some ⟨⟨"k", [1], [1]⟩, mkPriors false, false, none, none⟩ := by
  rfl

/-- Claim C1 as amended: for every mode string typ outside {admit, coh,
admit_coh}, bayes_real_estimate does not fail: it silently constructs the model
with no likelihood term and no sigma node attached and proceeds to sample it. -/
theorem claim_C1_amended (k adm eadm coh ecoh : List ℚ) (atyp : Bool) (typ : String)
    (h1 : typ ≠ "admit") (h2 : typ ≠ "coh") (h3 : typ ≠ "admit_coh") :
    bayes_real_model k adm eadm coh ecoh atyp typ
      = some ⟨⟨"k", k, k⟩, mkPriors atyp, atyp, none, none⟩ := by
  simp [bayes_real_model, h1, h2, h3]

/-- Claim C1, witness: the amended theorem evaluated at the concrete invalid
mode string bogus. -/
theorem claim_C1_witness :
    bayes_real_model [2] [3] [4] [5] [6] true "bogus"
      = some ⟨⟨"k", [2], [2]⟩, mkPriors true, true, none, none⟩ :=
  claim_C1_amended [2] [3] [4] [5] [6] true "bogus"
    (by decide) (by decide) (by decide)

/-- Claim C2, counterexample: with len k = 2 and every other vector of length 1,
and typ admit, bayes_real_estimate raises no shape-validation error: the model
is constructed successfully despite the mismatched lengths. -/
theorem claim_C2_counterexample :
    ([1, 2] : List ℚ).length ≠ ([3] : List ℚ).length
      ∧ (bayes_real_model [1, 2] [3] [4] [5] [6] false "admit").isSome = true := by
  exact ⟨by decide, rfl⟩

/-- Claim C2 as amended: bayes_real_estimate performs no input-length
validation: for typ admit, typ coh, or any unrecognized mode string, the call
constructs the model regardless of any mismatch among the lengths of k, adm,
eadm, coh and ecoh, and no descriptive shape-validation error is raised before
model construction. -/
theorem claim_C2_amended (k adm eadm coh ecoh : List ℚ) (atyp : Bool) (typ : String)
    (h : typ ≠ "admit_coh") :
    (bayes_real_model k adm eadm coh ecoh atyp typ).isSome = true := by
  unfold bayes_real_model
  split_ifs with hA hC
  · rfl
  · rfl
  · rfl

/-- Claim C2, witness: the amended theorem evaluated at concrete vectors of
pairwise different lengths with typ admit. -/
theorem claim_C2_witness :
    (bayes_real_model [1, 2] [3, 4, 5] [6] [7] [] false "admit").isSome = true :=
  claim_C2_amended [1, 2] [3, 4, 5] [6] [7] [] false "admit" (by decide)

/-- Claim C3: for typ admit_coh with equal-length inputs, the observed vector
of the likelihood term is adm followed by coh in that exact order, and the
sigma node is fixed, mean and observed data alike, to eadm followed by ecoh in
that same order. -/
theorem claim_C3 (k adm eadm coh ecoh : List ℚ) (atyp : Bool)
    (hd : adm.length = coh.length) (he : eadm.length = ecoh.length) :
    bayes_real_model k adm eadm coh ecoh atyp "admit_coh"
      = some ⟨⟨"k", k, k⟩, mkPriors atyp, atyp,
          some ⟨"sigma", eadm ++ ecoh, eadm ++ ecoh⟩,
          some ⟨"admit_coh_obs", MuExpr.admitCohConcat, adm ++ coh⟩⟩ := by
  have h1 : npFlatten2 eadm ecoh = some (eadm ++ ecoh) := by
    simp [npFlatten2, he]
  have h2 : npFlatten2 adm coh = some (adm ++ coh) := by
    simp [npFlatten2, hd]
  have key : bayes_real_model k adm eadm coh ecoh atyp "admit_coh"
      = (match npFlatten2 eadm ecoh, npFlatten2 adm coh with
          | some ee, some ac =>
            some (⟨⟨"k", k, k⟩, mkPriors atyp, atyp,
              some ⟨"sigma", ee, ee⟩,
              some ⟨"admit_coh_obs", MuExpr.admitCohConcat, ac⟩⟩ : Model)
          | _, _ => none) := rfl
  rw [key, h1, h2]

/-- Claim C3, witness: the theorem evaluated at concrete singleton vectors. -/
theorem claim_C3_witness :
    bayes_real_model [1] [2] [3] [4] [5] false "admit_coh"
      = some ⟨⟨"k", [1], [1]⟩, mkPriors false, false,
          some ⟨"sigma", [3, 5], [3, 5]⟩,
          some ⟨"admit_coh_obs", MuExpr.admitCohConcat, [2, 4]⟩⟩ :=
  claim_C3 [1] [2] [3] [4] [5] false rfl rfl

/-- Claim C4: when the MAP dict has Te and F entries and the summary rows 0 and
1 carry the Te and F statistics, mean in column 0 and standard deviation in
column 1, get_Te_F returns the fixed-order 6-tuple (mean Te, std Te, MAP Te,
mean F, std F, MAP F), reading the means and standard deviations from summary
rows 0 and 1 and the best estimates from the MAP entries Te and F. -/
theorem claim_C4 (me : List (String × ℚ)) (s : SummaryTable)
    (n0 n1 : String) (v0 v1 : List ℚ) (rest : List (String × List ℚ))
    (mte ste bte mf sf bf : ℚ)
    (hrows : s.rows = (n0, v0) :: (n1, v1) :: rest)
    (h00 : v0.get? 0 = some mte) (h01 : v0.get? 1 = some ste)
    (h10 : v1.get? 0 = some mf) (h11 : v1.get? 1 = some sf)
    (hTe : me.lookup "Te" = some bte) (hF : me.lookup "F" = some bf) :
    get_Te_F me s = some (mte, ste, bte, mf, sf, bf) := by
  simp only [List.get?_eq_getElem?] at h00 h01 h10 h11
  simp [get_Te_F, sAt, hrows, h00, h01, h10, h11, hTe, hF]

/-- Claim C4, witness: the theorem evaluated at a concrete MAP dict and a
concrete two-row summary table. -/
theorem claim_C4_witness :
    get_Te_F [("Te", 7), ("F", 8)]
        ⟨summaryCols, [("Te", [1, 2]), ("F", [3, 4])]⟩
      = some (1, 2, 7, 3, 4, 8) :=
  claim_C4 [("Te", 7), ("F", 8)]
    ⟨summaryCols, [("Te", [1, 2]), ("F", [3, 4])]⟩
    "Te" "F" [1, 2] [3, 4] [] 1 2 7 3 4 8 rfl rfl rfl rfl rfl rfl rfl

/-- Claim C5: every model built by bayes_real_estimate gives Te a uniform
prior on [2, 250] and F a uniform prior on [0, 0.99999); a uniform prior on
[0, pi] for alpha is part of the priors exactly when atyp is true, and the
forward model is invoked with the phase argument exactly when atyp is true. -/
theorem claim_C5 (k adm eadm coh ecoh : List ℚ) (atyp : Bool) (typ : String)
    (m : Model) (h : bayes_real_model k adm eadm coh ecoh atyp typ = some m) :
    m.priors
        = [⟨"Te", BoundV.lit 2, BoundV.lit 250⟩,
            ⟨"F", BoundV.lit 0, BoundV.lit (99999 / 100000)⟩]
          ++ (if atyp then [⟨"alpha", BoundV.lit 0, BoundV.pi⟩] else [])
      ∧ m.forwardWithAlpha = atyp := by
  obtain ⟨-, h2, h3⟩ := build_shape k adm eadm coh ecoh atyp typ m h
  exact ⟨h2, h3⟩

/-- The model that bayes_real_estimate builds from singleton input vectors with
atyp true and typ coh, evaluated for the claim C5 witness. -/
def mC5 : Model :=
  ⟨⟨"k", [1], [1]⟩, mkPriors true, true,
    some ⟨"sigma", [5], [5]⟩, some ⟨"coh_obs", MuExpr.cohExp, [4]⟩⟩

/-- Claim C5, witness: the theorem evaluated at concrete singleton vectors with
atyp true and typ coh. -/
theorem claim_C5_witness :
    bayes_real_model [1] [2] [3] [4] [5] true "coh" = some mC5
      ∧ (mC5.priors
            = [⟨"Te", BoundV.lit 2, BoundV.lit 250⟩,
                ⟨"F", BoundV.lit 0, BoundV.lit (99999 / 100000)⟩]
              ++ (if true then [⟨"alpha", BoundV.lit 0, BoundV.pi⟩] else [])
          ∧ mC5.forwardWithAlpha = true) :=
  ⟨rfl, claim_C5 [1] [2] [3] [4] [5] true "coh" mC5 rfl⟩

/-- Claim C6: in every model built with a valid mode the sampled (free)
parameters are exactly Te and F when atyp is false and exactly Te, F and alpha
when atyp is true; k and sigma are observed-normal nodes whose mean equals
their observed data, namely the supplied input vectors, and neither k nor
sigma is among the sampled parameters. -/
theorem claim_C6 (k adm eadm coh ecoh : List ℚ) (atyp : Bool) (typ : String)
    (m : Model)
    (hv : typ = "admit" ∨ typ = "coh" ∨ typ = "admit_coh")
    (h : bayes_real_model k adm eadm coh ecoh atyp typ = some m) :
    freeRVNames m = (if atyp then ["Te", "F", "alpha"] else ["Te", "F"])
      ∧ "k" ∉ freeRVNames m ∧ "sigma" ∉ freeRVNames m
      ∧ m.kObs = ⟨"k", k, k⟩
      ∧ m.sigma = some ⟨"sigma", sigmaData typ eadm ecoh,
          sigmaData typ eadm ecoh⟩ := by
  have hfree : ∀ m : Model, m.priors = mkPriors atyp →
      freeRVNames m = (if atyp then ["Te", "F", "alpha"] else ["Te", "F"])
        ∧ "k" ∉ freeRVNames m ∧ "sigma" ∉ freeRVNames m := by
    intro m hm
    cases atyp <;> simp [freeRVNames, hm, mkPriors]
  rcases hv with rfl | rfl | rfl
  · have key : bayes_real_model k adm eadm coh ecoh atyp "admit"
        = some (⟨⟨"k", k, k⟩, mkPriors atyp, atyp,
            some ⟨"sigma", eadm, eadm⟩,
            some ⟨"admit_obs", MuExpr.admitExp, adm⟩⟩ : Model) := rfl
    rw [key] at h
    cases Option.some.inj h
    exact ⟨(hfree _ rfl).1, (hfree _ rfl).2.1, (hfree _ rfl).2.2, rfl, rfl⟩
  · have key : bayes_real_model k adm eadm coh ecoh atyp "coh"
        = some (⟨⟨"k", k, k⟩, mkPriors atyp, atyp,
            some ⟨"sigma", ecoh, ecoh⟩,
            some ⟨"coh_obs", MuExpr.cohExp, coh⟩⟩ : Model) := rfl
    rw [key] at h
    cases Option.some.inj h
    exact ⟨(hfree _ rfl).1, (hfree _ rfl).2.1, (hfree _ rfl).2.2, rfl, rfl⟩
  · have hm := build_admit_coh k adm eadm coh ecoh atyp m h
    cases hm
    exact ⟨(hfree _ rfl).1, (hfree _ rfl).2.1, (hfree _ rfl).2.2, rfl, rfl⟩

/-- The model that bayes_real_estimate builds from singleton input vectors with
atyp false and typ admit, evaluated for the claim C6 witness. -/
def mC6 : Model :=
  ⟨⟨"k", [1], [1]⟩, mkPriors false, false,
    some ⟨"sigma", [3], [3]⟩, some ⟨"admit_obs", MuExpr.admitExp, [2]⟩⟩

/-- Claim C6, witness: the theorem evaluated at concrete singleton vectors with
atyp false and typ admit. -/
theorem claim_C6_witness :
    freeRVNames mC6 = (if false then ["Te", "F", "alpha"] else ["Te", "F"])
      ∧ "k" ∉ freeRVNames mC6 ∧ "sigma" ∉ freeRVNames mC6
      ∧ mC6.kObs = ⟨"k", [1], [1]⟩
      ∧ mC6.sigma = some ⟨"sigma", sigmaData "admit" [3] [5],
          sigmaData "admit" [3] [5]⟩ :=
  claim_C6 [1] [2] [3] [4] [5] false "admit" mC6 (Or.inl rfl) rfl

/-- Claim C7: for every physics kernel and all fixed inputs (k, Te, F), the
no-alpha adapter real_xspec_functions_noalpha returns the same (admittance,
coherence) pair as the with-alpha adapter real_xspec_functions_alpha evaluated
at the physical default value of alpha. -/
theorem claim_C7 (core : List ℚ → ℚ → ℚ → ℚ → List ℚ × List ℚ)
    (k : List ℚ) (Te F : ℚ) :
    real_xspec_functions_noalpha core k Te F
      = real_xspec_functions_alpha core k Te F flex_default_alpha := rfl

/-- Claim C8: for every successful call of bayes_real_estimate, the returned
summary table has the columns of summaryCols, one row per free parameter in
model-construction order, and every value in it a multiple of 1/100, that is,
rounded to two decimal places. -/
theorem claim_C8 (stats : String → List ℚ) (k adm eadm coh ecoh : List ℚ)
    (atyp : Bool) (typ : String) (m : Model)
    (_hv : typ = "admit" ∨ typ = "coh" ∨ typ = "admit_coh")
    (_h : bayes_real_model k adm eadm coh ecoh atyp typ = some m) :
    (bayes_summary stats m).cols = summaryCols
      ∧ (bayes_summary stats m).rows.map Prod.fst = freeRVNames m
      ∧ ∀ r ∈ (bayes_summary stats m).rows, ∀ v ∈ r.2, (100 * v).den = 1 := by
  refine ⟨rfl, ?_, ?_⟩
  · simp only [bayes_summary, roundTable, pm_summary, List.map_map]
    exact List.map_id _
  · intro r hr v hvv
    simp only [bayes_summary, roundTable, pm_summary, List.map_map,
      List.mem_map] at hr
    obtain ⟨n, hn, rfl⟩ := hr
    simp only [Function.comp, List.mem_map] at hvv
    obtain ⟨x, hx, rfl⟩ := hvv
    show (100 * round2 x).den = 1
    unfold round2
    rw [mul_comm, div_mul_cancel₀ _ (by norm_num : (100 : ℚ) ≠ 0)]
    exact Rat.den_intCast _

/-- A concrete abstract statistics kernel for the claim C8 witness. -/
def wStats : String → List ℚ := fun _ => [1 / 3, 5 / 2]

/-- Claim C8, witness: the theorem evaluated at singleton input vectors with
typ admit and a concrete statistics kernel. -/
theorem claim_C8_witness :
    (bayes_summary wStats mC6).cols = summaryCols
      ∧ (bayes_summary wStats mC6).rows.map Prod.fst = freeRVNames mC6
      ∧ ∀ r ∈ (bayes_summary wStats mC6).rows, ∀ v ∈ r.2, (100 * v).den = 1 :=
  claim_C8 wStats [1] [2] [3] [4] [5] false "admit" mC6 (Or.inl rfl) rfl

/-- Claim C9: bayes_real_estimate never mutates its input arrays: with the five
input arrays threaded as explicit state through the call, the state handed
back equals the initial one, so k, adm, eadm, coh and ecoh hold the same
values after the call as before it. -/
theorem claim_C9 (a : Arrays) (atyp : Bool) (typ : String) :
    (bayes_real_estimate_st a atyp typ).2 = a := rfl

/-- Claim C10: the output of get_Te_F depends only on summary rows 0 and 1 at
columns 0 and 1 and on the MAP entries Te and F: two input pairs that agree on
those six components, whatever their other rows, columns or keys, yield
identical results. -/
theorem claim_C10 (me1 me2 : List (String × ℚ)) (s1 s2 : SummaryTable)
    (h00 : sAt s1 0 0 = sAt s2 0 0) (h01 : sAt s1 0 1 = sAt s2 0 1)
    (h10 : sAt s1 1 0 = sAt s2 1 0) (h11 : sAt s1 1 1 = sAt s2 1 1)
    (hTe : me1.lookup "Te" = me2.lookup "Te")
    (hF : me1.lookup "F" = me2.lookup "F") :
    get_Te_F me1 s1 = get_Te_F me2 s2 := by
  simp only [get_Te_F, h00, h01, h10, h11, hTe, hF]

/-- Claim C10, witness: the theorem evaluated at two concrete input pairs that
agree on the relevant components but differ in their column labels, in an
extra statistics column of row 0, in an extra alpha row, and in an extra
sigma MAP entry. -/
theorem claim_C10_witness :
    get_Te_F [("Te", 7), ("F", 8)]
        ⟨summaryCols, [("Te", [1, 2]), ("F", [3, 4])]⟩
      = get_Te_F [("Te", 7), ("F", 8), ("sigma", 9)]
          ⟨[], [("Te", [1, 2, 99]), ("F", [3, 4]), ("alpha", [5, 6])]⟩ :=
  claim_C10 [("Te", 7), ("F", 8)] [("Te", 7), ("F", 8), ("sigma", 9)]
    ⟨summaryCols, [("Te", [1, 2]), ("F", [3, 4])]⟩
    ⟨[], [("Te", [1, 2, 99]), ("F", [3, 4]), ("alpha", [5, 6])]⟩
    rfl rfl rfl rfl rfl rfl

end PlateFlex
